import Mathlib

/-!
Verification of the live-window aggregation core of the tickerapi repository
(`app/api/endpoints/scores.py`, `app/core/cache.py`).

Conventions of the shallow embedding:
* Timestamps and durations are integers counted in minutes (UTC instants);
  `timedelta(hours=h)` becomes `60*h`, `timedelta(days=d)` becomes `1440*d`.
* Python strings are Lean `String`; `str.lower()` is `lowerStr` below, and
  single-character `str.replace` calls are `removeChar` / `replaceChar`.
* A raised exception from an upstream fetch is `Except.error`, a successful
  fetch is `Except.ok`.
* Python dicts are association lists looked up by first match.
-/

namespace TickerApi

/-- ASCII lowercasing of one character, the effect of Python `str.lower` on the
ASCII status and collection-name strings this API handles. -/
def lowerChar (c : Char) : Char :=
  if 'A' ≤ c ∧ c ≤ 'Z' then Char.ofNat (c.toNat + 32) else c

/-- Python `str.lower` on a string. -/
def lowerStr (s : String) : String := ⟨s.data.map lowerChar⟩

/-- Python `str.replace(pat, "")` for a single-character pattern: every
occurrence of the character is deleted. -/
def removeChar (pat : Char) (s : String) : String :=
  ⟨s.data.filter (fun c => c ≠ pat)⟩

/-- Python `str.replace(pat, rep)` for single-character pattern and
replacement: every occurrence of `pat` becomes `rep`. -/
def replaceChar (pat rep : Char) (s : String) : String :=
  ⟨s.data.map (fun c => if c = pat then rep else c)⟩

/-- The live-status synonym list that appears (three times, with identical
content) in `is_game_in_live_window` (scores.py lines 47-48, 69-70, 93-94). -/
def liveStatuses : List String :=
  ["in progress", "halftime", "1st quarter", "2nd quarter", "3rd quarter", "4th quarter",
   "1st half", "2nd half", "overtime", "live", "active"]

/-- Embedding of `is_game_in_live_window` (scores.py lines 25-105), time in minutes.
The Python function tests `collection_mode` first, then `tight_window`,
then falls through to the standard window. -/
def is_game_in_live_window (game_date : Int) (status : String) (current_time : Int)
    (tight_window : Bool) (collection_mode : Bool) : Bool :=
  if collection_mode then
    -- lines 39-59: broad window, two days each way
    let two_days_ago := current_time - 2880
    let two_days_from_now := current_time + 2880
    let status_lower := lowerStr status
    if status_lower ∈ liveStatuses then true
    else if status_lower = "final" ∧ game_date ≥ two_days_ago then true
    else if status_lower = "scheduled" ∧ game_date ≤ two_days_from_now then true
    else false
  else if tight_window then
    -- lines 61-80: tight window, 4 hours back / 6 hours forward
    let four_hours_ago := current_time - 240
    let six_hours_from_now := current_time + 360
    let status_lower := lowerStr status
    if status_lower ∈ liveStatuses then true
    else if status_lower = "final" ∧ game_date ≥ four_hours_ago then true
    else if status_lower = "scheduled" ∧ game_date ≤ six_hours_from_now then true
    else false
  else
    -- lines 82-105: standard window, 12 hours back / 18 hours forward,
    -- scheduled games additionally bounded below by the current time
    let twelve_hours_ago := current_time - 720
    let eighteen_hours_from_now := current_time + 1080
    let status_lower := lowerStr status
    if status_lower ∈ liveStatuses then true
    else if status_lower = "final" ∧ game_date ≥ twelve_hours_ago then true
    else if status_lower = "scheduled" ∧ current_time ≤ game_date ∧ game_date < eighteen_hours_from_now then true
    else false

/-- Spec-side predicate for the standard window, written from the words of the
spec/claim: live synonym, or final and start within the last 12 hours, or
scheduled with `now <= start < now + 18h`. -/
def standardWindowSpec (game_date : Int) (status : String) (current_time : Int) : Prop :=
  lowerStr status ∈ liveStatuses
  ∨ (lowerStr status = "final" ∧ game_date ≥ current_time - 720)
  ∨ (lowerStr status = "scheduled" ∧ current_time ≤ game_date ∧ game_date < current_time + 1080)

/-- Spec-side predicate for the tight window as the code actually implements it:
live synonym, or final within the last 4 hours, or scheduled with
`start <= now + 6h` and no lower bound on the start time. -/
def tightWindowCode (game_date : Int) (status : String) (current_time : Int) : Prop :=
  lowerStr status ∈ liveStatuses
  ∨ (lowerStr status = "final" ∧ game_date ≥ current_time - 240)
  ∨ (lowerStr status = "scheduled" ∧ game_date ≤ current_time + 360)

/-- Spec-side predicate for the broad (collection-mode) window as the code
actually implements it: live synonym, or final within the last 48 hours, or
scheduled with `start <= now + 48h` and no lower bound on the start time. -/
def broadWindowCode (game_date : Int) (status : String) (current_time : Int) : Prop :=
  lowerStr status ∈ liveStatuses
  ∨ (lowerStr status = "final" ∧ game_date ≥ current_time - 2880)
  ∨ (lowerStr status = "scheduled" ∧ game_date ≤ current_time + 2880)

/-- C1: the standard mode of the window policy agrees with the spec's
disjunction exactly. -/
theorem standard_window_matches_spec (game_date : Int) (status : String) (current_time : Int) :
    is_game_in_live_window game_date status current_time false false = true
      ↔ standardWindowSpec game_date status current_time := by
  simp only [is_game_in_live_window, standardWindowSpec, Bool.false_eq_true, if_false]
  split
  · simp_all
  · split
    · simp_all
    · split
      · simp_all
      · simp_all

/-- C2 counterexample: a scheduled event whose start time is strictly in the
past (one hour before now) is included by tight mode and by broad mode, while
the claim says a scheduled event with a past start time is excluded in both. -/
theorem tight_broad_include_past_scheduled :
    is_game_in_live_window (-60) "scheduled" 0 true false = true
      ∧ is_game_in_live_window (-60) "scheduled" 0 false true = true := by
  constructor <;> decide

/-- C2 (amended): tight mode returns true iff status is a live synonym, or
final with start within the last 4 hours, or scheduled with start at most
6 hours from now (no lower bound, so past scheduled events are included);
broad mode likewise with 48 hours both for finals and for the scheduled
upper bound, again with no lower bound. -/
theorem tight_broad_window_match_code (game_date : Int) (status : String) (current_time : Int) :
    (is_game_in_live_window game_date status current_time true false = true
      ↔ tightWindowCode game_date status current_time)
    ∧ (∀ tw : Bool, is_game_in_live_window game_date status current_time tw true = true
      ↔ broadWindowCode game_date status current_time) := by
  constructor
  · simp only [is_game_in_live_window, tightWindowCode, Bool.false_eq_true, if_false,
      Bool.true_eq, if_true]
    split
    · simp_all
    · split
      · simp_all
      · simp_all
  · intro tw
    simp only [is_game_in_live_window, broadWindowCode, Bool.true_eq, if_true]
    split
    · simp_all
    · split
      · simp_all
      · simp_all

/-!
Concrete scenario of C8, minutes counted from 2024-01-01T00:00:00Z:
* now = 2024-01-10T20:00Z = 14160
* event A: status "Final", start 2024-01-10T09:00Z = 13500 (11 hours before now)
* event B: status "Scheduled", start 2024-01-11T01:00Z = 14460 (5 hours ahead)
* event C: status "Final", start 2024-01-08T09:00Z = 10620 (59 hours before now)
-/

/-- C8 counterexample: event C (status "Final", 59 hours old) is excluded by
broad mode as well, because the broad final window only reaches back 48 hours;
the claim says broad mode includes it. -/
theorem broad_excludes_event_c :
    is_game_in_live_window 10620 "Final" 14160 false true = false := by
  decide

/-- C8 (amended): with now = 2024-01-10T20:00Z, event A ("Final", started
11 hours ago) is included by standard and excluded by tight mode; event B
("Scheduled", 5 hours ahead) is included by all three modes; event C ("Final",
started 59 hours ago) is excluded by all three modes, broad included, since
its age exceeds the 48-hour broad final window. -/
theorem window_concrete_scenario :
    is_game_in_live_window 13500 "Final" 14160 false false = true
    ∧ is_game_in_live_window 13500 "Final" 14160 true false = false
    ∧ is_game_in_live_window 14460 "Scheduled" 14160 false false = true
    ∧ is_game_in_live_window 14460 "Scheduled" 14160 true false = true
    ∧ is_game_in_live_window 14460 "Scheduled" 14160 false true = true
    ∧ is_game_in_live_window 10620 "Final" 14160 false false = false
    ∧ is_game_in_live_window 10620 "Final" 14160 true false = false
    ∧ is_game_in_live_window 10620 "Final" 14160 false true = false := by
  refine ⟨?_, ?_, ?_, ?_, ?_, ?_, ?_, ?_⟩ <;> decide

/-! ## TTL cache (`app/core/cache.py`, in-process fallback store)

The claims address the in-memory backing store (`self.cache`,
`self.last_updated`, `self.custom_expirations`), i.e. the `use_redis = False`
paths of `Cache.set` / `Cache.get` / `Cache.invalidate`.  `datetime.now()` is
passed in explicitly as an integer instant in minutes. -/

/-- Python dict assignment `d[k] = v`: the binding for `k` is replaced. -/
def dictSet {α : Type} (k : String) (v : α) (d : List (String × α)) : List (String × α) :=
  (k, v) :: d.filter (fun p => p.1 ≠ k)

/-- Python dict lookup `d.get(k)` / `d[k]`. -/
def dictGet {α : Type} (k : String) : List (String × α) → Option α
  | [] => none
  | (k2, v) :: rest => if k2 = k then some v else dictGet k rest

/-- Python `del d[k]`. -/
def dictDel {α : Type} (k : String) (d : List (String × α)) : List (String × α) :=
  d.filter (fun p => p.1 ≠ k)

/-- The in-memory state of `Cache` (cache.py lines 13-24): the default TTL
`self.expiration_time` (minutes) plus the three per-key dicts. -/
structure Cache (α : Type) where
  expiration_time : Int
  cache : List (String × α)
  last_updated : List (String × Int)
  custom_expirations : List (String × Int)

/-- Embedding of `Cache.__init__(expiration_minutes=5)` with Redis unavailable. -/
def Cache.init (α : Type) (expiration_minutes : Int := 5) : Cache α :=
  ⟨expiration_minutes, [], [], []⟩

/-- Embedding of `Cache.set` (cache.py lines 26-48), in-memory path.  Note the Python
truthiness test `if expiration_minutes`: passing `0` falls back to the default
TTL exactly like passing `None`. -/
def Cache.set {α : Type} (c : Cache α) (key : String) (value : α) (now : Int)
    (expiration_minutes : Option Int) : Cache α :=
  let expiration :=
    match expiration_minutes with
    | some m => if m = 0 then c.expiration_time else m
    | none => c.expiration_time
  { c with
    cache := dictSet key value c.cache
    last_updated := dictSet key now c.last_updated
    custom_expirations := dictSet key expiration c.custom_expirations }

/-- Embedding of `Cache.invalidate` (cache.py lines 75-86), in-memory path: deletes the key
from `self.cache` and `self.last_updated` (but not `custom_expirations`). -/
def Cache.invalidate {α : Type} (c : Cache α) (key : String) : Cache α :=
  if (dictGet key c.cache).isSome then
    { c with cache := dictDel key c.cache, last_updated := dictDel key c.last_updated }
  else c

/-- Embedding of `Cache.get` (cache.py lines 50-73), in-memory path.  Returns the value (or
`none` on a miss) together with the possibly-mutated cache state.  The
`last_updated` lookup defaults to `0`; in the Python code that lookup can
never miss while the key is present in `self.cache`, because `set` writes both
dicts together and `invalidate` deletes both together. -/
def Cache.get {α : Type} (c : Cache α) (key : String) (now : Int) : Option α × Cache α :=
  match dictGet key c.cache with
  | some v =>
    let expiration_time := (dictGet key c.custom_expirations).getD c.expiration_time
    let stored_at := (dictGet key c.last_updated).getD 0
    if now - stored_at < expiration_time then (some v, c)
    else (none, c.invalidate key)
  | none => (none, c)

theorem dictGet_dictSet_self {α : Type} (k : String) (v : α) (d : List (String × α)) :
    dictGet k (dictSet k v d) = some v := by
  simp [dictSet, dictGet]

theorem dictGet_dictDel_self {α : Type} (k : String) (d : List (String × α)) :
    dictGet k (dictDel k d) = none := by
  induction d with
  | nil => rfl
  | cons p rest ih =>
    by_cases h : p.1 = k
    · simpa [dictDel, h] using ih
    · simpa [dictDel, dictGet, h] using ih

/-- C7: on the in-process store, `set k v T` followed immediately by `get k`
returns `v`; once time has advanced by at least `T` (here `T > 0`, since the
code treats a TTL of `0` as "use the default" by Python truthiness), `get k`
returns a miss and evicts `k`, leaving `k` absent from the store. -/
theorem cache_set_get_roundtrip {α : Type} (c : Cache α) (k : String) (v : α)
    (T now later : Int) (hT : 0 < T) (hadv : T ≤ later - now) :
    ((c.set k v now (some T)).get k now).1 = some v
    ∧ (((c.set k v now (some T)).get k later).1 = none
    ∧ dictGet k (((c.set k v now (some T)).get k later).2.cache) = none) := by
  have hT0 : T ≠ 0 := by omega
  have hget : dictGet k (c.set k v now (some T)).cache = some v := by
    simp [Cache.set, dictGet_dictSet_self]
  have hexp : dictGet k (c.set k v now (some T)).custom_expirations = some T := by
    simp [Cache.set, hT0, dictGet_dictSet_self]
  have hupd : dictGet k (c.set k v now (some T)).last_updated = some now := by
    simp [Cache.set, dictGet_dictSet_self]
  refine ⟨?_, ?_, ?_⟩
  · simp [Cache.get, hget, hexp, hupd, hT]
  · have hmiss : ¬ (later - now < T) := by omega
    simp [Cache.get, hget, hexp, hupd, hmiss]
  · have hmiss : ¬ (later - now < T) := by omega
    simp [Cache.get, hget, hexp, hupd, hmiss, Cache.invalidate, dictGet_dictDel_self]

/-- Witness for C7 at a concrete instance: key `"k"`, value `7`, TTL `3`
minutes, written at time `100` and read back at times `100` and `103`. -/
theorem cache_set_get_roundtrip_witness :
    (((Cache.init Nat 5).set "k" 7 100 (some 3)).get "k" 100).1 = some 7
    ∧ ((((Cache.init Nat 5).set "k" 7 100 (some 3)).get "k" 103).1 = none
    ∧ dictGet "k" ((((Cache.init Nat 5).set "k" 7 100 (some 3)).get "k" 103).2.cache) = none) :=
  cache_set_get_roundtrip (Cache.init Nat 5) "k" 7 3 100 103 (by decide) (by decide)

/-! ## Live aggregation (`get_live_scores`, scores.py lines 859-1116)

The model covers the fetch/merge core (lines 903-1023): accumulating
collection-partition results, the more-than-25 shortcut, the decision whether
to fetch the general per-sport partitions, the window filter applied to
general events, and the identifier-based deduplicating merge.  The subsequent
sorting and enrichment steps permute or decorate the merged list and are not
the subject of any claim.  Upstream fetches are supplied as `Except` values:
`Except.error` is a raised exception, caught by the `try/except ... continue`
around each fetch. -/

/-- The per-event fields the aggregation core inspects. -/
structure Event where
  id : String
  date : Int
  status : String
deriving DecidableEq, Repr

/-- The accumulation loop over collection-partition fetches (scores.py lines
944-960): results of successful fetches are appended in order, an exception
skips that partition. -/
def collectPartitions : List (Except String (List Event)) → List Event
  | [] => []
  | Except.ok games :: rest => games ++ collectPartitions rest
  | Except.error _ :: rest => collectPartitions rest

/-- The general-sports fetch loop (scores.py lines 983-1004): per successfully
fetched sport, keep the events passing `is_game_in_live_window` with
`tight_window = (collections is None)` and `collection_mode =
(collections is not None)`; a fetch exception skips that sport. -/
def fetchGeneralEvents (collectionsGiven : Bool)
    (fetchScores : String → Except String (List Event)) (now : Int) :
    List String → List Event
  | [] => []
  | sp :: rest =>
    match fetchScores sp with
    | Except.ok scores =>
        scores.filter
          (fun s => is_game_in_live_window s.date s.status now (!collectionsGiven) collectionsGiven)
          ++ fetchGeneralEvents collectionsGiven fetchScores now rest
    | Except.error _ => fetchGeneralEvents collectionsGiven fetchScores now rest

/-- The deduplicating merge loop (scores.py lines 1006-1023): walk the list,
keep an event only if its identifier has not been seen yet. -/
def dedupeById (seen : List String) : List Event → List Event
  | [] => []
  | e :: rest =>
    if e.id ∈ seen then dedupeById seen rest
    else e :: dedupeById (e.id :: seen) rest

/-- First event of the list carrying the given identifier. -/
def firstWithId (i : String) : List Event → Option Event
  | [] => none
  | e :: rest => if e.id = i then some e else firstWithId i rest

/-- The merge core of `get_live_scores` (scores.py lines 903-1023).
`collectionsGiven` is the truthiness of the `collections` parameter,
`sportFilters` the resolved basic sport filters, `defaultSports` the
`sports_to_check` list, `collFetches` the ordered collection-partition fetch
results, and `fetchScores` the general per-sport fetch. -/
def get_live_scores_merge (collectionsGiven : Bool)
    (sportFilters defaultSports : List String)
    (collFetches : List (Except String (List Event)))
    (fetchScores : String → Except String (List Event)) (now : Int) : List Event :=
  let collection_scores := collectPartitions collFetches
  -- line 963: `if collections and len(collection_scores) > 25`
  if collectionsGiven ∧ collection_scores.length > 25 then
    collection_scores
  else
    -- line 974: `collections is None or len(sport_filters_requested) > 0`
    let should_fetch_general_sports := ¬collectionsGiven = true ∨ sportFilters.length > 0
    -- lines 977-980: restrict to the requested sport filters when present
    let sports_to_fetch := if sportFilters.isEmpty then defaultSports else sportFilters
    let general :=
      if should_fetch_general_sports then
        fetchGeneralEvents collectionsGiven fetchScores now sports_to_fetch
      else []
    -- line 1007: `if collection_scores:` guards the deduplicating merge
    if collection_scores.isEmpty then general
    else dedupeById [] (collection_scores ++ general)

/-- Whether the control flow of lines 962-983 reaches the general-sports fetch
loop: not in the more-than-25 shortcut, and `should_fetch_general_sports`. -/
def general_fetch_happens (collectionsGiven : Bool)
    (numSportFilters numCollectionEvents : Nat) : Bool :=
  if collectionsGiven ∧ numCollectionEvents > 25 then false
  else decide (¬collectionsGiven = true ∨ numSportFilters > 0)

/-- The condition of claim C3, from its words: fetch always, except when named
collections were given, no sport filters were requested, and more than 25
collection events accumulated. -/
def generalFetchClaimSpec (namedCollectionsGiven : Bool)
    (numSportFilters numCollectionEvents : Nat) : Bool :=
  !(namedCollectionsGiven && numSportFilters == 0 && decide (numCollectionEvents > 25))

/-- C3 counterexample: with named collections given, no sport filters, and only
10 collection events (at most 25), the claim's condition says the general
fetch happens, but the code does not reach the general fetch loop. -/
theorem general_fetch_disagrees_with_claim :
    generalFetchClaimSpec true 0 10 = true ∧ general_fetch_happens true 0 10 = false := by
  constructor <;> decide

/-- C3 (amended): the general partitions are fetched iff the collections
parameter is absent, or sport filters were requested and at most 25
collection-sourced events were accumulated.  In particular, with named
collections and no sport filters the general fetch never happens (also with
25 or fewer collection events), and with sport filters it is skipped as soon
as the named collections yield more than 25 events. -/
theorem general_fetch_characterization (collectionsGiven : Bool)
    (numSportFilters numCollectionEvents : Nat) :
    general_fetch_happens collectionsGiven numSportFilters numCollectionEvents
      = (!collectionsGiven
         || (decide (numSportFilters > 0) && decide (numCollectionEvents ≤ 25))) := by
  cases collectionsGiven with
  | false => simp [general_fetch_happens]
  | true =>
    by_cases h : numCollectionEvents > 25
    · have h2 : ¬ numCollectionEvents ≤ 25 := by omega
      simp [general_fetch_happens, h, h2]
    · have h2 : numCollectionEvents ≤ 25 := by omega
      simp [general_fetch_happens, h, h2]

theorem mem_collectPartitions_iff (rs : List (Except String (List Event))) (e : Event) :
    e ∈ collectPartitions rs ↔ ∃ gs, Except.ok gs ∈ rs ∧ e ∈ gs := by
  induction rs with
  | nil => simp [collectPartitions]
  | cons r rest ih =>
    cases r with
    | ok gs => simp [collectPartitions, List.mem_append, ih]
    | error m => simp [collectPartitions, ih]

theorem mem_fetchGeneralEvents_iff (cg : Bool)
    (f : String → Except String (List Event)) (now : Int) (sports : List String) (e : Event) :
    e ∈ fetchGeneralEvents cg f now sports
      ↔ ∃ sp ∈ sports, ∃ gs, f sp = Except.ok gs ∧ e ∈ gs
          ∧ is_game_in_live_window e.date e.status now (!cg) cg = true := by
  induction sports with
  | nil => simp [fetchGeneralEvents]
  | cons sp rest ih =>
    cases hf : f sp with
    | ok gs => simp [fetchGeneralEvents, hf, List.mem_append, List.mem_filter, ih]
    | error m => simp [fetchGeneralEvents, hf, ih]

theorem dedupeById_mem_first (xs : List Event) (e : Event) :
    ∀ seen : List String, e ∈ dedupeById seen xs →
      e.id ∉ seen ∧ firstWithId e.id xs = some e := by
  induction xs with
  | nil => intro seen he; simp [dedupeById] at he
  | cons x rest ih =>
    intro seen he
    by_cases hx : x.id ∈ seen
    · rw [dedupeById, if_pos hx] at he
      obtain ⟨h1, h2⟩ := ih seen he
      have hne : ¬ x.id = e.id := fun h => h1 (h ▸ hx)
      exact ⟨h1, by rw [firstWithId, if_neg hne]; exact h2⟩
    · rw [dedupeById, if_neg hx] at he
      rcases List.mem_cons.mp he with rfl | he2
      · exact ⟨hx, by rw [firstWithId, if_pos rfl]⟩
      · obtain ⟨h1, h2⟩ := ih (x.id :: seen) he2
        have hne : ¬ x.id = e.id := fun h => h1 (h ▸ List.mem_cons_self _ _)
        have hs : e.id ∉ seen := fun h => h1 (List.mem_cons_of_mem _ h)
        exact ⟨hs, by rw [firstWithId, if_neg hne]; exact h2⟩

theorem dedupeById_nodup (xs : List Event) :
    ∀ seen : List String, ((dedupeById seen xs).map Event.id).Nodup
      ∧ ∀ i ∈ (dedupeById seen xs).map Event.id, i ∉ seen := by
  induction xs with
  | nil => intro seen; simp [dedupeById]
  | cons x rest ih =>
    intro seen
    by_cases hx : x.id ∈ seen
    · rw [dedupeById, if_pos hx]; exact ih seen
    · rw [dedupeById, if_neg hx]
      obtain ⟨h1, h2⟩ := ih (x.id :: seen)
      refine ⟨?_, ?_⟩
      · simp only [List.map_cons, List.nodup_cons]
        exact ⟨fun h => (h2 _ h) (List.mem_cons_self _ _), h1⟩
      · intro i hi
        simp only [List.map_cons, List.mem_cons] at hi
        rcases hi with rfl | hi
        · exact hx
        · exact fun h => (h2 _ hi) (List.mem_cons_of_mem _ h)

theorem dedupeById_covers (xs : List Event) (e : Event) :
    ∀ seen : List String, e ∈ xs → e.id ∉ seen →
      e.id ∈ (dedupeById seen xs).map Event.id := by
  induction xs with
  | nil => intro seen he _; simp at he
  | cons x rest ih =>
    intro seen he hs
    by_cases hx : x.id ∈ seen
    · rw [dedupeById, if_pos hx]
      rcases List.mem_cons.mp he with rfl | he2
      · exact absurd hx hs
      · exact ih seen he2 hs
    · rw [dedupeById, if_neg hx]
      by_cases hid : e.id = x.id
      · simp [hid]
      · rcases List.mem_cons.mp he with rfl | he2
        · simp
        · have : e.id ∉ x.id :: seen := by
            intro h; rcases List.mem_cons.mp h with h | h
            · exact hid h
            · exact hs h
          simp only [List.map_cons, List.mem_cons]
          exact Or.inr (ih (x.id :: seen) he2 this)

theorem firstWithId_append (i : String) (xs ys : List Event)
    (hi : i ∈ xs.map Event.id) :
    firstWithId i (xs ++ ys) = firstWithId i xs := by
  induction xs with
  | nil => simp at hi
  | cons x rest ih =>
    by_cases hx : x.id = i
    · simp [firstWithId, hx]
    · have : i ∈ rest.map Event.id := by
        simp only [List.map_cons, List.mem_cons] at hi
        rcases hi with h | h
        · exact absurd h.symm hx
        · exact h
      simp [firstWithId, hx, ih this]

/-- Events with identifiers "A" .. "Y" followed by a second event with
identifier "A": 26 collection-sourced events containing a duplicate. -/
def dupEvents : List Event :=
  (List.range 26).map (fun n => ⟨String.mk [Char.ofNat (65 + n % 25)], 0, "final"⟩)

/-- C4 counterexample: when the collection fetches alone produce more than 25
events, the code returns `collection_scores` without any deduplication, so a
duplicated identifier ("A") survives into the merged result twice. -/
theorem live_merge_shortcut_keeps_duplicates :
    ((get_live_scores_merge true [] [] [Except.ok dupEvents]
        (fun _ => Except.error "down") 0).map Event.id).count "A" = 2
    ∧ ¬ ((get_live_scores_merge true [] [] [Except.ok dupEvents]
        (fun _ => Except.error "down") 0).map Event.id).Nodup := by
  constructor <;> decide

/-- C4 (amended): whenever the merged result is produced by the deduplicating
merge — i.e. the collection fetches produced at least one event and the
more-than-25 shortcut was not taken — every event identifier occurs exactly
once, every collection-sourced identifier is present, and any event whose
identifier also came from a collection source is the first collection-sourced
occurrence of that identifier (collection-sourced copies take priority over
general-sourced ones).  When the shortcut fires, the collection list is
returned as-is and may contain duplicates. -/
theorem merged_ids_unique (collectionsGiven : Bool)
    (sportFilters defaultSports : List String)
    (collFetches : List (Except String (List Event)))
    (fetchScores : String → Except String (List Event)) (now : Int)
    (merged : List Event)
    (hm : merged = get_live_scores_merge collectionsGiven sportFilters defaultSports
            collFetches fetchScores now)
    (hshort : ¬(collectionsGiven = true ∧ (collectPartitions collFetches).length > 25))
    (hne : collectPartitions collFetches ≠ []) :
    (merged.map Event.id).Nodup
    ∧ (∀ e ∈ collectPartitions collFetches, e.id ∈ merged.map Event.id)
    ∧ ∀ e ∈ merged, e.id ∈ (collectPartitions collFetches).map Event.id →
        firstWithId e.id (collectPartitions collFetches) = some e := by
  have hempty : ¬ (collectPartitions collFetches).isEmpty := by
    simpa [List.isEmpty_iff] using hne
  rw [get_live_scores_merge] at hm
  rw [if_neg hshort, if_neg hempty] at hm
  refine ⟨?_, ?_, ?_⟩
  · rw [hm]; exact (dedupeById_nodup _ []).1
  · intro e he
    rw [hm]
    exact dedupeById_covers _ e [] (List.mem_append_left _ he) (List.not_mem_nil _)
  · intro e he hid
    rw [hm] at he
    have h2 := (dedupeById_mem_first _ e [] he).2
    rwa [firstWithId_append e.id _ _ hid] at h2

/-- Witness for C4's amended theorem at a concrete input: one collection
partition returning two events with the same identifier "a", collections
given, no sport filters; the merge keeps only the first copy. -/
theorem merged_ids_unique_witness :
    ((get_live_scores_merge true [] [] [Except.ok [⟨"a", 0, "final"⟩, ⟨"a", 5, "x"⟩]]
        (fun _ => Except.error "down") 0).map Event.id).Nodup := by
  have h := merged_ids_unique true [] [] [Except.ok [⟨"a", 0, "final"⟩, ⟨"a", 5, "x"⟩]]
    (fun _ => Except.error "down") 0 _ rfl (by decide) (by decide)
  exact h.1

/-- C6: (i) an event reaches the accumulated collection results iff some
succeeding collection-partition fetch returned it, so failed partitions are
skipped and their failure never propagates; (ii) likewise an event reaches the
general results iff some succeeding general fetch returned it and it passes
the window filter; (iii) if every collection partition and every general fetch
fails, the aggregation returns the empty list rather than an error. -/
theorem partition_failures_degrade_gracefully :
    (∀ (rs : List (Except String (List Event))) (e : Event),
        e ∈ collectPartitions rs ↔ ∃ gs, Except.ok gs ∈ rs ∧ e ∈ gs)
    ∧ (∀ (cg : Bool) (f : String → Except String (List Event)) (now : Int)
        (sports : List String) (e : Event),
        e ∈ fetchGeneralEvents cg f now sports
          ↔ ∃ sp ∈ sports, ∃ gs, f sp = Except.ok gs ∧ e ∈ gs
              ∧ is_game_in_live_window e.date e.status now (!cg) cg = true)
    ∧ ∀ (cg : Bool) (sf ds : List String) (rs : List (Except String (List Event)))
        (f : String → Except String (List Event)) (now : Int),
        (∀ r ∈ rs, ∃ m, r = Except.error m) →
        (∀ sp, ∃ m, f sp = Except.error m) →
        get_live_scores_merge cg sf ds rs f now = [] := by
  refine ⟨mem_collectPartitions_iff, mem_fetchGeneralEvents_iff, ?_⟩
  intro cg sf ds rs f now hrs hf
  have hcoll : collectPartitions rs = [] := by
    rw [List.eq_nil_iff_forall_not_mem]
    intro e he
    obtain ⟨gs, hok, _⟩ := (mem_collectPartitions_iff rs e).mp he
    obtain ⟨m, hm⟩ := hrs _ hok
    cases hm
  have hgen : ∀ sports, fetchGeneralEvents cg f now sports = [] := by
    intro sports
    rw [List.eq_nil_iff_forall_not_mem]
    intro e he
    obtain ⟨sp, _, gs, hok, _⟩ := (mem_fetchGeneralEvents_iff cg f now sports e).mp he
    obtain ⟨m, hm⟩ := hf sp
    rw [hm] at hok
    cases hok
  rw [get_live_scores_merge, hcoll]
  simp [hgen]

/-- Witness for C6: every collection partition raises and every general fetch
raises; the aggregation still returns an empty successful result. -/
theorem partition_failures_degrade_gracefully_witness :
    get_live_scores_merge false [] ["basketball/nba"] [Except.error "boom"]
      (fun _ => Except.error "down") 0 = [] := by
  refine partition_failures_degrade_gracefully.2.2 false [] ["basketball/nba"]
    [Except.error "boom"] (fun _ => Except.error "down") 0 ?_ ?_
  · intro r hr
    rw [List.mem_singleton] at hr
    exact ⟨"boom", hr⟩
  · intro sp
    exact ⟨"down", rfl⟩

/-- C9: (i) every collection-sourced event's identifier is present in the
merged live result no matter what its status or start time are — collection
events are never passed through the window policy; (ii) when collections were
given, the general-partition events that enter the merge are exactly those
passing the broad window (`tight_window = false`, `collection_mode = true`). -/
theorem collection_events_bypass_window :
    (∀ (cg : Bool) (sf ds : List String) (rs : List (Except String (List Event)))
        (f : String → Except String (List Event)) (now : Int) (e : Event),
        e ∈ collectPartitions rs →
        e.id ∈ (get_live_scores_merge cg sf ds rs f now).map Event.id)
    ∧ ∀ (f : String → Except String (List Event)) (now : Int)
        (sports : List String) (e : Event),
        e ∈ fetchGeneralEvents true f now sports →
        is_game_in_live_window e.date e.status now false true = true := by
  constructor
  · intro cg sf ds rs f now e he
    rw [get_live_scores_merge]
    split
    · exact List.mem_map_of_mem Event.id he
    · have hne : ¬ (collectPartitions rs).isEmpty := by
        rw [List.isEmpty_iff]
        intro h
        rw [h] at he
        exact List.not_mem_nil e he
      rw [if_neg hne]
      exact dedupeById_covers _ e [] (List.mem_append_left _ he) (List.not_mem_nil _)
  · intro f now sports e he
    obtain ⟨_, _, _, _, _, hw⟩ := (mem_fetchGeneralEvents_iff true f now sports e).mp he
    simpa using hw

/-- Witness for C9: a collection-sourced event with an unrecognized status
("weird") and a start time far outside every window still reaches the merged
result, and a general-partition event that did enter a collection request's
merge passes the broad window. -/
theorem collection_events_bypass_window_witness :
    (Event.id ⟨"x", -100000, "weird"⟩)
        ∈ (get_live_scores_merge true [] [] [Except.ok [⟨"x", -100000, "weird"⟩]]
            (fun _ => Except.error "down") 0).map Event.id
    ∧ is_game_in_live_window (Event.date ⟨"g", 0, "Final"⟩) (Event.status ⟨"g", 0, "Final"⟩)
        0 false true = true := by
  constructor
  · exact collection_events_bypass_window.1 true [] [] [Except.ok [⟨"x", -100000, "weird"⟩]]
      (fun _ => Except.error "down") 0 ⟨"x", -100000, "weird"⟩ (by decide)
  · exact collection_events_bypass_window.2 (fun _ => Except.ok [⟨"g", 0, "Final"⟩]) 0
      ["s"] ⟨"g", 0, "Final"⟩ (by decide)

/-! ## Collection resolver (`get_collection_groups`, scores.py lines 189-562,
and the lookup in `get_live_scores`, lines 917-943) -/

/-- A partition identifier: a numeric ESPN group, or the `"top25"` sentinel. -/
inductive GroupId where
  | num (n : Nat)
  | top25
deriving DecidableEq, Repr

/-- The `get_collection_groups` dict (scores.py lines 189-562), in source
order.  The Python dict literal repeats the keys `big_12_football`,
`acc_mens_basketball`, `acc_womens_basketball`, `acc_football` and
`big_ten_football` with identical values; in Python the later occurrence wins,
so first-match lookup over this list is equivalent. -/
def collection_groups : List (String × List (String × List GroupId)) :=
  [("a_10_mens_basketball", [("basketball_mens-college", [GroupId.num 3])]),
   ("a_10_womens_basketball", [("basketball_womens-college", [GroupId.num 3])]),
   ("big_east_mens_basketball", [("basketball_mens-college", [GroupId.num 4])]),
   ("big_east_womens_basketball", [("basketball_womens-college", [GroupId.num 4])]),
   ("big_12_football", [("college_football", [GroupId.num 4])]),
   ("big_ten_football", [("college_football", [GroupId.num 5])]),
   ("acc_mens_basketball", [("basketball_mens-college", [GroupId.num 2])]),
   ("acc_womens_basketball", [("basketball_womens-college", [GroupId.num 2])]),
   ("acc_football", [("college_football", [GroupId.num 1])]),
   ("america_east_mens_basketball", [("basketball_mens-college", [GroupId.num 1])]),
   ("america_east_womens_basketball", [("basketball_womens-college", [GroupId.num 1])]),
   ("big_sky_mens_basketball", [("basketball_mens-college", [GroupId.num 5])]),
   ("big_sky_womens_basketball", [("basketball_womens-college", [GroupId.num 5])]),
   ("big_sky_football", [("college_football", [GroupId.num 20])]),
   ("big_12_mens_basketball", [("basketball_mens-college", [GroupId.num 8])]),
   ("big_12_womens_basketball", [("basketball_womens-college", [GroupId.num 8])]),
   ("big_12_football", [("college_football", [GroupId.num 4])]),
   ("sec_mens_basketball", [("basketball_mens-college", [GroupId.num 23])]),
   ("sec_womens_basketball", [("basketball_womens-college", [GroupId.num 23])]),
   ("sec_football", [("college_football", [GroupId.num 8])]),
   ("acc_mens_basketball", [("basketball_mens-college", [GroupId.num 2])]),
   ("acc_womens_basketball", [("basketball_womens-college", [GroupId.num 2])]),
   ("acc_football", [("college_football", [GroupId.num 1])]),
   ("big_ten_mens_basketball", [("basketball_mens-college", [GroupId.num 7])]),
   ("big_ten_womens_basketball", [("basketball_womens-college", [GroupId.num 7])]),
   ("big_ten_football", [("college_football", [GroupId.num 5])]),
   ("big_west_mens_basketball", [("basketball_mens-college", [GroupId.num 9])]),
   ("big_west_womens_basketball", [("basketball_womens-college", [GroupId.num 9])]),
   ("coastal_mens_basketball", [("basketball_mens-college", [GroupId.num 10])]),
   ("coastal_womens_basketball", [("basketball_womens-college", [GroupId.num 10])]),
   ("conference_usa_mens_basketball", [("basketball_mens-college", [GroupId.num 11])]),
   ("conference_usa_womens_basketball", [("basketball_womens-college", [GroupId.num 11])]),
   ("conference_usa_football", [("college_football", [GroupId.num 12])]),
   ("ivy_league_mens_basketball", [("basketball_mens-college", [GroupId.num 12])]),
   ("ivy_league_womens_basketball", [("basketball_womens-college", [GroupId.num 12])]),
   ("maac_mens_basketball", [("basketball_mens-college", [GroupId.num 13])]),
   ("maac_womens_basketball", [("basketball_womens-college", [GroupId.num 13])]),
   ("mac_mens_basketball", [("basketball_mens-college", [GroupId.num 14])]),
   ("mac_womens_basketball", [("basketball_womens-college", [GroupId.num 14])]),
   ("mac_football", [("college_football", [GroupId.num 15])]),
   ("meac_mens_basketball", [("basketball_mens-college", [GroupId.num 16])]),
   ("meac_womens_basketball", [("basketball_womens-college", [GroupId.num 16])]),
   ("mountain_west_football", [("college_football", [GroupId.num 17])]),
   ("missouri_valley_mens_basketball", [("basketball_mens-college", [GroupId.num 18])]),
   ("missouri_valley_womens_basketball", [("basketball_womens-college", [GroupId.num 18])]),
   ("northeast_mens_basketball", [("basketball_mens-college", [GroupId.num 19])]),
   ("northeast_womens_basketball", [("basketball_womens-college", [GroupId.num 19])]),
   ("ohio_valley_mens_basketball", [("basketball_mens-college", [GroupId.num 20])]),
   ("ohio_valley_womens_basketball", [("basketball_womens-college", [GroupId.num 20])]),
   ("pac_12_mens_basketball", [("basketball_mens-college", [GroupId.num 21])]),
   ("pac_12_womens_basketball", [("basketball_womens-college", [GroupId.num 21])]),
   ("patriot_league_mens_basketball", [("basketball_mens-college", [GroupId.num 22])]),
   ("patriot_league_womens_basketball", [("basketball_womens-college", [GroupId.num 22])]),
   ("southern_mens_basketball", [("basketball_mens-college", [GroupId.num 24])]),
   ("southern_womens_basketball", [("basketball_womens-college", [GroupId.num 24])]),
   ("southland_mens_basketball", [("basketball_mens-college", [GroupId.num 25])]),
   ("southland_womens_basketball", [("basketball_womens-college", [GroupId.num 25])]),
   ("swac_mens_basketball", [("basketball_mens-college", [GroupId.num 26])]),
   ("swac_womens_basketball", [("basketball_womens-college", [GroupId.num 26])]),
   ("sun_belt_mens_basketball", [("basketball_mens-college", [GroupId.num 27])]),
   ("sun_belt_womens_basketball", [("basketball_womens-college", [GroupId.num 27])]),
   ("patriot_league_football", [("college_football", [GroupId.num 27])]),
   ("wcc_mens_basketball", [("basketball_mens-college", [GroupId.num 29])]),
   ("wcc_womens_basketball", [("basketball_womens-college", [GroupId.num 29])]),
   ("southern_football", [("college_football", [GroupId.num 29])]),
   ("wac_mens_basketball", [("basketball_mens-college", [GroupId.num 30])]),
   ("wac_womens_basketball", [("basketball_womens-college", [GroupId.num 30])]),
   ("uac_football", [("college_football", [GroupId.num 30])]),
   ("swac_football", [("college_football", [GroupId.num 31])]),
   ("d3_football", [("college_football", [GroupId.num 35])]),
   ("d2_football", [("college_football", [GroupId.num 57])]),
   ("horizon_league_mens_basketball", [("basketball_mens-college", [GroupId.num 45])]),
   ("horizon_league_womens_basketball", [("basketball_womens-college", [GroupId.num 45])]),
   ("asun_mens_basketball", [("basketball_mens-college", [GroupId.num 46])]),
   ("asun_womens_basketball", [("basketball_womens-college", [GroupId.num 46])]),
   ("fbs_football", [("college_football", [GroupId.num 80])]),
   ("fcs_football", [("college_football", [GroupId.num 81])]),
   ("mvfc_football", [("college_football", [GroupId.num 21])]),
   ("cfb_top_25", [("college_football", [GroupId.top25])]),
   ("mcbb_top_25", [("basketball_mens-college", [GroupId.top25])]),
   ("wcbb_top_25", [("basketball_womens-college", [GroupId.top25])]),
   ("college_football", [("college_football", [GroupId.num 90])]),
   ("all_college_football", [("college_football", [GroupId.num 99])]),
   ("mens_college_basketball", [("basketball_mens-college", [GroupId.num 50])]),
   ("womens_college_basketball", [("basketball_womens-college", [GroupId.num 50])]),
   ("big sky", [("basketball_mens-college", [GroupId.num 5]), ("college_football", [GroupId.num 20])]),
   ("big_sky", [("basketball_mens-college", [GroupId.num 5]), ("college_football", [GroupId.num 20])]),
   ("big 12", [("basketball_mens-college", [GroupId.num 21]), ("college_football", [GroupId.num 4])]),
   ("big_12", [("basketball_mens-college", [GroupId.num 21]), ("college_football", [GroupId.num 4])]),
   ("mvfc", [("college_football", [GroupId.num 21])]),
   ("missouri_valley", [("college_football", [GroupId.num 21])]),
   ("fcs", [("college_football", [GroupId.num 81])]),
   ("fcs football", [("college_football", [GroupId.num 81])])]

/-- The normalization applied to each user-supplied collection name in
`get_live_scores` (scores.py lines 922, 933, 1096):
`collection_name.lower().replace(' ', '').replace('-', '_')`.
Note that spaces are removed, not turned into underscores. -/
def normalizeCollectionKey (name : String) : String :=
  replaceChar '-' '_' (removeChar ' ' (lowerStr name))

/-- The sport keys iterated for each recognized collection
(scores.py line 937). -/
def collectionSportKeys : List String :=
  ["basketball_mens-college", "basketball_womens-college", "college_football"]

/-- The (sport-key, partition) pairs a single collection name expands to in
`get_live_scores` (scores.py lines 932-944): normalize, look the key up in the
collection-groups table (a miss contributes nothing and raises no error), then
collect the groups of each supported sport key in order. -/
def resolveCollection (name : String) : List (String × GroupId) :=
  match dictGet (normalizeCollectionKey name) collection_groups with
  | none => []
  | some m =>
    collectionSportKeys.foldr
      (fun sk acc =>
        match dictGet sk m with
        | some gs => gs.map (fun g => (sk, g)) ++ acc
        | none => acc) []

/-- C5 counterexample: the name "big sky" normalizes to "bigsky" (spaces are
deleted, not collapsed to underscores), which is unknown, so it resolves to no
partitions at all, while "big_sky" resolves to the Big Sky basketball and
football partitions — contradicting the claim that the two resolve to the
same set of pairs. -/
theorem collection_name_space_variant_differs :
    resolveCollection "big sky" = []
    ∧ resolveCollection "big_sky"
        = [("basketball_mens-college", GroupId.num 5), ("college_football", GroupId.num 20)]
    ∧ resolveCollection "big sky" ≠ resolveCollection "big_sky" := by
  refine ⟨?_, ?_, ?_⟩ <;> decide

/-- C5 (amended): the resolver looks each name up after lowercasing, deleting
spaces, and turning hyphens into underscores, so names differing only in case
or hyphens ("Big-Sky", "BIG_SKY", "big_sky") resolve to the same pairs, while
a name containing a space ("big sky") fails the lookup; any name unknown after
normalization is silently dropped, producing no error and no partitions. -/
theorem collection_resolver_normalization :
    (∀ name : String, dictGet (normalizeCollectionKey name) collection_groups = none →
        resolveCollection name = [])
    ∧ resolveCollection "Big-Sky" = resolveCollection "big_sky"
    ∧ resolveCollection "BIG_SKY" = resolveCollection "big_sky"
    ∧ resolveCollection "big sky" = [] := by
  refine ⟨?_, by decide, by decide, by decide⟩
  intro name h
  rw [resolveCollection, h]

/-- Witness for C5's amended theorem: the unknown name "no_such_conference"
resolves to no partitions without an error. -/
theorem collection_resolver_normalization_witness :
    resolveCollection "no_such_conference" = [] :=
  collection_resolver_normalization.1 "no_such_conference" (by decide)

end TickerApi
